import Mathlib

/-!
Verification of the request-builder utility (src/utils/request-builder.ts).

The module resolves a service base URL from an environment configuration
and decorates an HTTP request builder with headers, query parameters and
a body.  We embed it shallowly: the environment configuration is an
association list of service name to base URL (JavaScript objects have
unique keys; property lookup is first match), the static service
registry (TEMPLATE_CONFIG.services, a map from each symbolic name to
itself) is the list of its values in declaration order, the SuperTest
request object is a record of its observable fields, and a thrown
Error becomes the error branch of an Except value.
-/

/-- A symbolic service name (a plain string in the source). -/
abbrev ServiceName := String

/-- The environment configuration as seen by the module: it may or may
not carry a services object mapping service names to base URLs. -/
structure EnvConfig where
  services : Option (List (ServiceName × String))
deriving Repr, DecidableEq

/-- The observable state of a SuperTest request builder: base URL fixed
at construction, then HTTP method, path, headers, query parameters and
body accumulated by chained calls. -/
structure RequestBuilder where
  baseUrl : String
  method : Option String
  path : Option String
  headers : List (String × String)
  queryParams : List (String × String)
  body : Option String
deriving Repr, DecidableEq

/-- The two configuration errors thrown by createRequest, kept in
structured form: the data interpolated into each thrown message. -/
inductive ConfigError where
  | servicesNotConfigured : ConfigError
  | serviceNotFound (serviceName : String) (available : List String) : ConfigError
deriving Repr, DecidableEq

/-- Renders the messages of the two `throw new Error(...)` sites. -/
def ConfigError.message : ConfigError → String
  | .servicesNotConfigured =>
      "Services not configured in environment file\nEnsure your environment config includes the services object"
  | .serviceNotFound s avail =>
      "Service \"" ++ s ++ "\" not configured in environment\nAvailable services: "
        ++ String.intercalate (", ") avail
        ++ "\nCheck your .env file for the corresponding URL variable"

/-- First-match lookup in a string association list, modelling
JavaScript object property access (object keys are unique). -/
def lookupStr : List (String × String) → String → Option String
  | [], _ => none
  | (k, v) :: rest, name => if k = name then some v else lookupStr rest name

/-- `request(url)`: a fresh SuperTest builder bound to a base URL. -/
def mkRequest (url : String) : RequestBuilder :=
  { baseUrl := url, method := none, path := none, headers := [],
    queryParams := [], body := none }

/-- Lines 44-47 of the source: `if (!serviceName)` replaces a missing
OR empty-string service name (both are falsy) with the value of the
first key of TEMPLATE_CONFIG.services in declaration order. -/
def resolveServiceName (registry : List ServiceName) :
    Option ServiceName → Option ServiceName
  | none => registry.head?
  | some s => if s = "" then registry.head? else some s

/-- `createRequest(serviceName?)` (lines 32-59).  Throws when the
configuration has no services object; resolves a default service name
when none (or an empty one) is given; throws, listing the configured
keys, when the resolved name has no truthy base URL (`!services[s]`
is true both for a missing key and for an empty-string URL); otherwise
returns a fresh builder bound to the base URL.  A JavaScript property
access with an undefined key coerces the key to the string value
shown, which we reproduce for the empty-registry corner. -/
def createRequest (registry : List ServiceName) (config : EnvConfig)
    (serviceName : Option ServiceName) : Except ConfigError RequestBuilder :=
  match config.services with
  | none => .error .servicesNotConfigured
  | some services =>
      let key := (resolveServiceName registry serviceName).getD ("undefined")
      match lookupStr services key with
      | some url =>
          if url = "" then
            .error (.serviceNotFound key (services.map Prod.fst))
          else
            .ok (mkRequest url)
      | none => .error (.serviceNotFound key (services.map Prod.fst))

/-- SuperTest `.set(name, value)` on the header list: overwrite the
existing binding in place, or append a new one.  Last write wins per
name. -/
def setHeader : List (String × String) → String → String → List (String × String)
  | [], name, value => [(name, value)]
  | (k, v) :: rest, name, value =>
      if k = name then (name, value) :: rest
      else (k, v) :: setHeader rest name value

/-- `.set(name, value)` on the builder. -/
def RequestBuilder.set (req : RequestBuilder) (name value : String) :
    RequestBuilder :=
  { req with headers := setHeader req.headers name value }

/-- Reads a header back from the builder. -/
def getHeader (req : RequestBuilder) (name : String) : Option String :=
  lookupStr req.headers name

/-- `.post(path)`: fixes the method and path. -/
def RequestBuilder.post (req : RequestBuilder) (p : String) : RequestBuilder :=
  { req with method := some ("POST"), path := some p }

/-- `.send(body)`: attaches the request body. -/
def RequestBuilder.send (req : RequestBuilder) (b : String) : RequestBuilder :=
  { req with body := some b }

/-- `withAuth(req, token)` (lines 66-68). -/
def withAuth (req : RequestBuilder) (token : String) : RequestBuilder :=
  req.set ("Authorization") (("Bearer ") ++ token)

/-- The default value of withApiKey's headerName parameter. -/
def defaultApiKeyHeader : String := "x-api-key"

/-- `withApiKey(req, apiKey, headerName = "x-api-key")` (lines 76-78).
A call without the third argument passes `defaultApiKeyHeader`. -/
def withApiKey (req : RequestBuilder) (apiKey : String)
    (headerName : String) : RequestBuilder :=
  req.set headerName apiKey

/-- `withHeaders(req, headers)` (lines 85-90): sets every entry of the
mapping on the request in enumeration order. -/
def withHeaders (req : RequestBuilder) (headers : List (String × String)) :
    RequestBuilder :=
  headers.foldl (fun r kv => r.set kv.1 kv.2) req

/-- `withQueryParams(req, params)` (lines 97-99): `.query(params)`
merges the parameters into the query string. -/
def withQueryParams (req : RequestBuilder) (params : List (String × String)) :
    RequestBuilder :=
  { req with queryParams := req.queryParams ++ params }

/-- `buildPostRequest(path, body, token?, serviceName?)` (lines
121-124): create the request, fix method POST and the path, attach the
body, then apply withAuth only when the token is truthy (present and
non-empty). -/
def buildPostRequest (registry : List ServiceName) (config : EnvConfig)
    (path : String) (body : String) (token : Option String)
    (serviceName : Option ServiceName) : Except ConfigError RequestBuilder :=
  match createRequest registry config serviceName with
  | .error e => .error e
  | .ok r =>
      let req := (r.post path).send body
      match token with
      | some t => if t = "" then .ok req else .ok (withAuth req t)
      | none => .ok req

/-! ### Helper lemmas about header setting and lookup -/

theorem lookupStr_setHeader_self (hs : List (String × String)) (n v : String) :
    lookupStr (setHeader hs n v) n = some v := by
  induction hs with
  | nil => simp [setHeader, lookupStr]
  | cons kv rest ih =>
      obtain ⟨k, w⟩ := kv
      by_cases hk : k = n
      · simp [setHeader, lookupStr, hk]
      · simp [setHeader, lookupStr, hk, ih]

theorem lookupStr_setHeader_other (hs : List (String × String)) (n m v : String)
    (hnm : m ≠ n) : lookupStr (setHeader hs n v) m = lookupStr hs m := by
  have hnm' : n ≠ m := fun h => hnm h.symm
  induction hs with
  | nil => simp [setHeader, lookupStr, hnm']
  | cons kv rest ih =>
      obtain ⟨k, w⟩ := kv
      by_cases hk : k = n
      · subst hk
        simp [setHeader, lookupStr, hnm']
      · simp [setHeader, lookupStr, hk, ih]

theorem setHeader_setHeader_self (hs : List (String × String)) (n v₁ v₂ : String) :
    setHeader (setHeader hs n v₁) n v₂ = setHeader hs n v₂ := by
  induction hs with
  | nil => simp [setHeader]
  | cons kv rest ih =>
      obtain ⟨k, w⟩ := kv
      by_cases hk : k = n
      · simp [setHeader, hk]
      · simp [setHeader, hk, ih]

theorem lookupStr_eq_none_of_not_mem (hs : List (String × String)) (m : String)
    (hm : m ∉ hs.map Prod.fst) : lookupStr hs m = none := by
  induction hs with
  | nil => rfl
  | cons kv rest ih =>
      obtain ⟨k, w⟩ := kv
      simp only [List.map_cons, List.mem_cons] at hm
      push_neg at hm
      have hk' : ¬k = m := fun h => hm.1 h.symm
      simp [lookupStr, hk', ih hm.2]

theorem lookupStr_eq_some_iff_mem (hs : List (String × String)) (m v : String)
    (hnd : (hs.map Prod.fst).Nodup) :
    lookupStr hs m = some v ↔ (m, v) ∈ hs := by
  induction hs with
  | nil => simp [lookupStr]
  | cons kv rest ih =>
      obtain ⟨k, w⟩ := kv
      simp only [List.map_cons, List.nodup_cons] at hnd
      by_cases hk : k = m
      · subst hk
        have hnone := lookupStr_eq_none_of_not_mem rest k hnd.1
        constructor
        · intro h
          simp only [lookupStr, if_pos rfl] at h
          exact List.mem_cons.2 (Or.inl (by simpa using h.symm))
        · intro h
          rcases List.mem_cons.1 h with h₁ | h₂
          · have hv : v = w := (Prod.ext_iff.mp h₁).2
            simp [lookupStr, hv]
          · exact absurd (List.mem_map.2 ⟨(k, v), h₂, rfl⟩) hnd.1
      · simp only [lookupStr, if_neg hk]
        rw [ih hnd.2]
        constructor
        · exact fun h => List.mem_cons.2 (Or.inr h)
        · intro h
          rcases List.mem_cons.1 h with h₁ | h₂
          · exact absurd (congrArg Prod.fst h₁).symm hk
          · exact h₂

theorem lookupStr_perm (hs₁ hs₂ : List (String × String)) (m : String)
    (hperm : hs₁.Perm hs₂) (hnd : (hs₁.map Prod.fst).Nodup) :
    lookupStr hs₁ m = lookupStr hs₂ m := by
  have hnd₂ : (hs₂.map Prod.fst).Nodup := ((hperm.map Prod.fst).nodup_iff).1 hnd
  cases h₁ : lookupStr hs₁ m with
  | some v =>
      have := (lookupStr_eq_some_iff_mem hs₁ m v hnd).1 h₁
      exact ((lookupStr_eq_some_iff_mem hs₂ m v hnd₂).2 (hperm.mem_iff.1 this)).symm
  | none =>
      cases h₂ : lookupStr hs₂ m with
      | some v =>
          have := (lookupStr_eq_some_iff_mem hs₂ m v hnd₂).1 h₂
          have := (lookupStr_eq_some_iff_mem hs₁ m v hnd).2 (hperm.mem_iff.2 this)
          rw [this] at h₁
          exact absurd h₁ (by simp)
      | none => rfl

theorem withHeaders_frame (r : RequestBuilder) (hs : List (String × String)) :
    withHeaders r hs = { r with headers := (withHeaders r hs).headers } := by
  induction hs generalizing r with
  | nil => rfl
  | cons kv rest ih =>
      calc withHeaders r (kv :: rest)
          = withHeaders (r.set kv.1 kv.2) rest := rfl
        _ = { r.set kv.1 kv.2 with
              headers := (withHeaders (r.set kv.1 kv.2) rest).headers } :=
            ih (r.set kv.1 kv.2)
        _ = { r with headers := (withHeaders r (kv :: rest)).headers } := rfl

theorem getHeader_withHeaders (r : RequestBuilder) (hs : List (String × String))
    (m : String) (hnd : (hs.map Prod.fst).Nodup) :
    getHeader (withHeaders r hs) m =
      match lookupStr hs m with
      | some v => some v
      | none => getHeader r m := by
  induction hs generalizing r with
  | nil => rfl
  | cons kv rest ih =>
      obtain ⟨k, w⟩ := kv
      simp only [List.map_cons, List.nodup_cons] at hnd
      have hstep : withHeaders r ((k, w) :: rest) = withHeaders (r.set k w) rest := rfl
      rw [hstep, ih (r.set k w) hnd.2]
      by_cases hk : k = m
      · subst hk
        rw [lookupStr_eq_none_of_not_mem rest k hnd.1]
        have : getHeader (r.set k w) k = some w := lookupStr_setHeader_self r.headers k w
        simp [lookupStr, this]
      · have hother : getHeader (r.set k w) m = getHeader r m :=
          lookupStr_setHeader_other r.headers k m w (fun h => hk h.symm)
        simp only [lookupStr, if_neg hk]
        cases lookupStr rest m with
        | some v => rfl
        | none => simpa using hother

/-! ### Shared facts about createRequest -/

theorem createRequest_ok_aux (registry : List ServiceName)
    (services : List (ServiceName × String)) (s u : String)
    (hs : s ≠ "") (hu : u ≠ "") (hlook : lookupStr services s = some u) :
    createRequest registry ⟨some services⟩ (some s) = .ok (mkRequest u) := by
  simp [createRequest, resolveServiceName, hs, hlook, hu]

theorem createRequest_absent_aux (registry : List ServiceName)
    (services : List (ServiceName × String)) (s : String)
    (hs : s ≠ "") (habs : lookupStr services s = none) :
    createRequest registry ⟨some services⟩ (some s)
      = .error (.serviceNotFound s (services.map Prod.fst)) := by
  simp [createRequest, resolveServiceName, hs, habs]

/-! ### Claim theorems -/

/-- C2: when the environment configuration has no services mapping at
all, createRequest raises the services-not-configured error whatever
service name (or none) was passed, and no builder is produced. -/
theorem createRequest_no_services (registry : List ServiceName)
    (serviceName : Option ServiceName) :
    createRequest registry ⟨none⟩ serviceName = .error .servicesNotConfigured := rfl

/-- C4: createRequest with no argument gives the same result as
createRequest applied to the first entry of the service registry in
declaration order, for every environment configuration. -/
theorem createRequest_default_service (cfg : EnvConfig) (d : ServiceName)
    (reg : List ServiceName) :
    createRequest (d :: reg) cfg none = createRequest (d :: reg) cfg (some d) := by
  have hres : resolveServiceName (d :: reg) none
      = resolveServiceName (d :: reg) (some d) := by
    by_cases hd : d = "" <;> simp [resolveServiceName, hd]
  obtain ⟨srv⟩ := cfg
  cases srv with
  | none => rfl
  | some services => simp only [createRequest, hres]

/-- C10: an empty-string service name is falsy in JavaScript, so it is
treated exactly like an omitted argument: it is replaced by the first
registry entry and never reaches the configuration lookup as the key
of the missing-service error. -/
theorem createRequest_empty_service_name (registry : List ServiceName)
    (cfg : EnvConfig) :
    createRequest registry cfg (some ("")) = createRequest registry cfg none ∧
    resolveServiceName registry (some ("")) = registry.head? := by
  constructor
  · have hres : resolveServiceName registry (some (""))
        = resolveServiceName registry none := by
      simp [resolveServiceName]
    obtain ⟨srv⟩ := cfg
    cases srv with
    | none => rfl
    | some services => simp only [createRequest, hres]
  · simp [resolveServiceName]

/-- C1 counterexample: the truthiness check `!services[serviceName]`
also fires when the configured base URL is the empty string, and an
empty-string identifier is falsy and gets replaced by the registry
default before the lookup, so a configured pair can still fail. -/
theorem createRequest_claim_cex :
    (lookupStr [(("api"), (""))] ("api") = some ("")) ∧
    (createRequest [("api")] ⟨some [(("api"), (""))]⟩ (some ("api"))
      = .error (.serviceNotFound ("api") [("api")])) ∧
    (lookupStr [((""), ("http://e"))] ("") = some ("http://e")) ∧
    (createRequest [("api")] ⟨some [((""), ("http://e"))]⟩ (some (""))
      = .error (.serviceNotFound ("api") [("")])) :=
  ⟨rfl, rfl, rfl, rfl⟩

/-- C1 (amended): for every non-empty configured service identifier
whose base URL is non-empty, createRequest succeeds and returns a
fresh builder whose network target is exactly that base URL. -/
theorem createRequest_ok_of_configured (registry : List ServiceName)
    (services : List (ServiceName × String)) (s u : String)
    (hs : s ≠ "") (hu : u ≠ "") (hlook : lookupStr services s = some u) :
    createRequest registry ⟨some services⟩ (some s) = .ok (mkRequest u) :=
  createRequest_ok_aux registry services s u hs hu hlook

/-- C1 witness: a concrete configured service resolves to its URL. -/
theorem createRequest_ok_of_configured_witness :
    createRequest [("api")] ⟨some [(("api"), ("http://a"))]⟩ (some ("api"))
      = .ok (mkRequest ("http://a")) :=
  createRequest_ok_of_configured [("api")] [(("api"), ("http://a"))] ("api")
    ("http://a") (by decide) (by decide) rfl

/-- C3 counterexample: the empty string is absent from the services
mapping, yet createRequest does not raise: being falsy, the empty
identifier is replaced by the registry default before the lookup. -/
theorem createRequest_absent_cex :
    (lookupStr [(("api"), ("http://a"))] ("") = none) ∧
    (createRequest [("api")] ⟨some [(("api"), ("http://a"))]⟩ (some (""))
      = .ok (mkRequest ("http://a"))) :=
  ⟨rfl, rfl⟩

/-- C3 (amended): for every non-empty service identifier absent from
the services mapping, createRequest raises the missing-service error
carrying that identifier together with the full list of identifiers
that are present (the keys joined into the thrown message). -/
theorem createRequest_absent_error (registry : List ServiceName)
    (services : List (ServiceName × String)) (s : String)
    (hs : s ≠ "") (habs : lookupStr services s = none) :
    createRequest registry ⟨some services⟩ (some s)
      = .error (.serviceNotFound s (services.map Prod.fst)) :=
  createRequest_absent_aux registry services s hs habs

/-- C3 witness: a concrete unknown identifier yields the error listing
the configured keys. -/
theorem createRequest_absent_error_witness :
    createRequest [("api")] ⟨some [(("api"), ("http://a"))]⟩ (some ("payments"))
      = .error (.serviceNotFound ("payments") [("api")]) :=
  createRequest_absent_error [("api")] [(("api"), ("http://a"))] ("payments")
    (by decide) rfl

/-- C6: withAuth sets the Authorization header to the bearer-prefixed
token, and a second application overwrites the first: only the last
token remains, and the doubly-decorated builder equals the singly
decorated one. -/
theorem withAuth_sets_bearer (r : RequestBuilder) (t t₁ t₂ : String) :
    getHeader (withAuth r t) ("Authorization") = some (("Bearer ") ++ t) ∧
    getHeader (withAuth (withAuth r t₁) t₂) ("Authorization")
      = some (("Bearer ") ++ t₂) ∧
    withAuth (withAuth r t₁) t₂ = withAuth r t₂ := by
  refine ⟨?_, ?_, ?_⟩
  · exact lookupStr_setHeader_self r.headers _ _
  · exact lookupStr_setHeader_self _ _ _
  · show RequestBuilder.mk _ _ _ _ _ _ = _
    simp [withAuth, RequestBuilder.set, setHeader_setHeader_self]

/-- C7 counterexample: passing the default header name explicitly does
set the x-api-key header, contradicting the claim that an explicit
header name never sets it. -/
theorem withApiKey_claim_cex :
    (getHeader (mkRequest ("http://a")) ("x-api-key") = none) ∧
    (getHeader (withApiKey (mkRequest ("http://a")) ("k1") ("x-api-key"))
      ("x-api-key") = some ("k1")) :=
  ⟨rfl, rfl⟩

/-- C7 (amended): withApiKey with the default header name sets
x-api-key to the key; with an explicit header name it sets that header
to the key, and when the explicit name differs from x-api-key the
x-api-key header is left untouched. -/
theorem withApiKey_spec (r : RequestBuilder) (k h : String)
    (hne : h ≠ ("x-api-key")) :
    getHeader (withApiKey r k defaultApiKeyHeader) ("x-api-key") = some k ∧
    getHeader (withApiKey r k h) h = some k ∧
    getHeader (withApiKey r k h) ("x-api-key") = getHeader r ("x-api-key") := by
  refine ⟨?_, ?_, ?_⟩
  · exact lookupStr_setHeader_self r.headers defaultApiKeyHeader k
  · exact lookupStr_setHeader_self r.headers h k
  · exact lookupStr_setHeader_other r.headers h ("x-api-key") k
      (fun hh => hne hh.symm)

/-- C7 witness: a custom header name receives the key and x-api-key
stays unset on a fresh builder. -/
theorem withApiKey_spec_witness :
    getHeader (withApiKey (mkRequest ("http://a")) ("k1") defaultApiKeyHeader)
      ("x-api-key") = some ("k1") ∧
    getHeader (withApiKey (mkRequest ("http://a")) ("k1") ("X-Custom"))
      ("X-Custom") = some ("k1") ∧
    getHeader (withApiKey (mkRequest ("http://a")) ("k1") ("X-Custom"))
      ("x-api-key") = getHeader (mkRequest ("http://a")) ("x-api-key") :=
  withApiKey_spec (mkRequest ("http://a")) ("k1") ("X-Custom") (by decide)

/-- C9: every decorator only touches the headers or query parameters
of the builder it was handed: method, path, base URL and body are
unchanged, the header decorators keep the query parameters and the
query decorator keeps the headers, so the returned builder is the
input builder with only those fields updated. -/
theorem decorators_frame (r : RequestBuilder) (t k h : String)
    (hs ps : List (String × String)) :
    ((withAuth r t).method = r.method ∧ (withAuth r t).path = r.path ∧
     (withAuth r t).baseUrl = r.baseUrl ∧ (withAuth r t).body = r.body ∧
     (withAuth r t).queryParams = r.queryParams) ∧
    ((withApiKey r k h).method = r.method ∧ (withApiKey r k h).path = r.path ∧
     (withApiKey r k h).baseUrl = r.baseUrl ∧ (withApiKey r k h).body = r.body ∧
     (withApiKey r k h).queryParams = r.queryParams) ∧
    ((withHeaders r hs).method = r.method ∧ (withHeaders r hs).path = r.path ∧
     (withHeaders r hs).baseUrl = r.baseUrl ∧ (withHeaders r hs).body = r.body ∧
     (withHeaders r hs).queryParams = r.queryParams) ∧
    ((withQueryParams r ps).method = r.method ∧
     (withQueryParams r ps).path = r.path ∧
     (withQueryParams r ps).baseUrl = r.baseUrl ∧
     (withQueryParams r ps).body = r.body ∧
     (withQueryParams r ps).headers = r.headers) := by
  have hf := withHeaders_frame r hs
  exact ⟨⟨rfl, rfl, rfl, rfl, rfl⟩, ⟨rfl, rfl, rfl, rfl, rfl⟩,
    ⟨by rw [hf], by rw [hf], by rw [hf], by rw [hf], by rw [hf]⟩,
    ⟨rfl, rfl, rfl, rfl, rfl⟩⟩

/-- C5: for a configured service, buildPostRequest yields a builder
with method POST, the given path and body, and an Authorization header
of the bearer-prefixed token; with the token omitted or empty the
result is the same builder except that no Authorization header is set
(the auth decoration is exactly a header update on top of it). -/
theorem buildPostRequest_spec (registry : List ServiceName)
    (services : List (ServiceName × String)) (s u p b t : String)
    (hs : s ≠ "") (hu : u ≠ "") (hlook : lookupStr services s = some u)
    (ht : t ≠ "") :
    buildPostRequest registry ⟨some services⟩ p b (some t) (some s)
      = .ok (withAuth (((mkRequest u).post p).send b) t) ∧
    buildPostRequest registry ⟨some services⟩ p b none (some s)
      = .ok (((mkRequest u).post p).send b) ∧
    buildPostRequest registry ⟨some services⟩ p b (some ("")) (some s)
      = .ok (((mkRequest u).post p).send b) ∧
    (withAuth (((mkRequest u).post p).send b) t).method = some ("POST") ∧
    (withAuth (((mkRequest u).post p).send b) t).path = some p ∧
    (withAuth (((mkRequest u).post p).send b) t).body = some b ∧
    getHeader (withAuth (((mkRequest u).post p).send b) t) ("Authorization")
      = some (("Bearer ") ++ t) ∧
    getHeader (((mkRequest u).post p).send b) ("Authorization") = none ∧
    withAuth (((mkRequest u).post p).send b) t
      = { ((mkRequest u).post p).send b with
          headers := [(("Authorization"), (("Bearer ") ++ t))] } := by
  have hok : createRequest registry ⟨some services⟩ (some s) = .ok (mkRequest u) :=
    createRequest_ok_aux registry services s u hs hu hlook
  refine ⟨?_, ?_, ?_, rfl, rfl, rfl, ?_, rfl, rfl⟩
  · simp [buildPostRequest, hok, ht]
  · simp [buildPostRequest, hok]
  · simp [buildPostRequest, hok]
  · exact lookupStr_setHeader_self _ _ _

/-- C5 witness: a concrete POST request with and without a token. -/
theorem buildPostRequest_spec_witness :
    buildPostRequest [("api")] ⟨some [(("api"), ("http://a"))]⟩ ("/users")
      ("name=a") (some ("tok")) (some ("api"))
      = .ok (withAuth (((mkRequest ("http://a")).post ("/users")).send
          ("name=a")) ("tok")) ∧
    buildPostRequest [("api")] ⟨some [(("api"), ("http://a"))]⟩ ("/users")
      ("name=a") none (some ("api"))
      = .ok (((mkRequest ("http://a")).post ("/users")).send
          ("name=a")) ∧
    getHeader (withAuth (((mkRequest ("http://a")).post ("/users")).send
        ("name=a")) ("tok")) ("Authorization")
      = some (("Bearer ") ++ ("tok")) := by
  have h := buildPostRequest_spec [("api")] [(("api"), ("http://a"))] ("api")
    ("http://a") ("/users") ("name=a") ("tok")
    (by decide) (by decide) rfl (by decide)
  exact ⟨h.1, h.2.1, h.2.2.2.2.2.2.1⟩

/-- C8: after withHeaders with a duplicate-free mapping, every entry
of the mapping is readable back with its exact value, and the header
state of the result does not depend on the enumeration order of the
mapping: any permutation of the entries produces the same value for
every header name. -/
theorem withHeaders_spec (r : RequestBuilder) (hs₁ hs₂ : List (String × String))
    (hperm : hs₁.Perm hs₂) (hnd : (hs₁.map Prod.fst).Nodup) :
    (∀ k v, (k, v) ∈ hs₁ → getHeader (withHeaders r hs₁) k = some v) ∧
    (∀ name, getHeader (withHeaders r hs₁) name
      = getHeader (withHeaders r hs₂) name) := by
  have hnd₂ : (hs₂.map Prod.fst).Nodup := ((hperm.map Prod.fst).nodup_iff).1 hnd
  constructor
  · intro k v hkv
    rw [getHeader_withHeaders r hs₁ k hnd,
        (lookupStr_eq_some_iff_mem hs₁ k v hnd).2 hkv]
  · intro name
    rw [getHeader_withHeaders r hs₁ name hnd,
        getHeader_withHeaders r hs₂ name hnd₂,
        lookupStr_perm hs₁ hs₂ name hperm hnd]

/-- C8 witness: a two-entry mapping read back, and agreement with the
swapped enumeration order at each of the two names. -/
theorem withHeaders_spec_witness :
    getHeader (withHeaders (mkRequest ("http://a"))
      [(("A"), ("1")), (("B"), ("2"))]) ("A") = some ("1") ∧
    getHeader (withHeaders (mkRequest ("http://a"))
      [(("A"), ("1")), (("B"), ("2"))]) ("A")
      = getHeader (withHeaders (mkRequest ("http://a"))
        [(("B"), ("2")), (("A"), ("1"))]) ("A") ∧
    getHeader (withHeaders (mkRequest ("http://a"))
      [(("A"), ("1")), (("B"), ("2"))]) ("B")
      = getHeader (withHeaders (mkRequest ("http://a"))
        [(("B"), ("2")), (("A"), ("1"))]) ("B") := by
  have h := withHeaders_spec (mkRequest ("http://a"))
    [(("A"), ("1")), (("B"), ("2"))] [(("B"), ("2")), (("A"), ("1"))]
    (List.Perm.swap _ _ _) (by decide)
  exact ⟨h.1 ("A") ("1") (by decide), h.2 ("A"), h.2 ("B")⟩
